import Mathlib

/-!
Shallow embedding of the FunPump bonding-curve and vesting engine
(`src/deep.rs`, with the `update_reserves` variant of `src/deepseek.rs`).

Machine integers are modelled as `Nat`/`Int` with explicit modular wrapping
where the Rust code can wrap (`u128` arithmetic, `as u64` casts, the `u16`
milestone-percentage accumulator) and explicit `checked_*` helpers mirroring
Rust's `checked_add`/`checked_sub`/`checked_mul`/`checked_div`.  A Rust
`u128` division panics on a zero divisor; the embedding makes that outcome
explicit via `RResult.panicked`, distinct from returning an error.
Mutating `&mut self` methods are embedded as functions returning the state
after the call together with the `Result` value, so that partial mutation
before an early `?`-return is faithfully visible.
-/

namespace FunPump

/-- `BASIS_POINTS` constant from `deep.rs` (`pub const BASIS_POINTS: u16 = 10000`). -/
def BASIS_POINTS : Nat := 10000

/-- Modulus of `u64`. -/
def U64_MOD : Nat := 2 ^ 64

/-- Modulus of `u128`. -/
def U128_MOD : Nat := 2 ^ 128

/-- Smallest `i64` value. -/
def I64_MIN : Int := -(2 ^ 63)

/-- Largest `i64` value. -/
def I64_MAX : Int := 2 ^ 63 - 1

/-- Rust `u64::checked_add` (operands assumed in `u64` range). -/
def checked_add_u64 (a b : Nat) : Option Nat :=
  if a + b < U64_MOD then some (a + b) else none

/-- Rust `u64::checked_sub`. -/
def checked_sub_u64 (a b : Nat) : Option Nat :=
  if b ≤ a then some (a - b) else none

/-- Rust `u128::checked_add` (operands assumed in `u128` range). -/
def checked_add_u128 (a b : Nat) : Option Nat :=
  if a + b < U128_MOD then some (a + b) else none

/-- Rust `u128::checked_sub`. -/
def checked_sub_u128 (a b : Nat) : Option Nat :=
  if b ≤ a then some (a - b) else none

/-- Rust `u128::checked_mul` (operands assumed in `u128` range). -/
def checked_mul_u128 (a b : Nat) : Option Nat :=
  if a * b < U128_MOD then some (a * b) else none

/-- Unchecked (wrapping) `u128` arithmetic result. -/
def wrap128 (a : Nat) : Nat := a % U128_MOD

/-- The truncating Rust cast `as u64` applied to a `u128` value. -/
def as_u64 (a : Nat) : Nat := a % U64_MOD

/-- The Rust cast `as u128` applied to an `i64` value (two's-complement
reinterpretation: negative values map to `2^128 + x`). -/
def i64_as_u128 (x : Int) : Nat := (x % (2 ^ 128 : Int)).toNat

/-- The Rust cast `as u64` applied to an `i64` value (two's-complement
reinterpretation: negative values map to `2^64 + x`). -/
def i64_as_u64 (x : Int) : Nat := (x % (2 ^ 64 : Int)).toNat

/-- Rust `i64::checked_sub` (operands assumed in `i64` range). -/
def checked_sub_i64 (a b : Int) : Option Int :=
  if I64_MIN ≤ a - b ∧ a - b ≤ I64_MAX then some (a - b) else none

/-- Unchecked (wrapping) `i64` addition result. -/
def wrap_i64 (x : Int) : Int := (x + 2 ^ 63) % 2 ^ 64 - 2 ^ 63

/-- The error codes of `deep.rs` (`enum CustomError`). -/
inductive CustomError where
  | unauthorizedAccess
  | invalidTimeParameters
  | invalidAmount
  | calculationError
  | tokensStillLocked
  | invalidVestingAmount
  | tokensAlreadyUnlocked
  | vestingPeriodNotEnded
  | marketCapNotReached
  | insufficientBalance
  | invalidCurveParameters
  | invalidMilestone
  | streamNotInitialized
  | invalidStreamRate
deriving DecidableEq, Repr

/-- Outcome of a fallible Rust computation: `Ok`, `Err`, or a runtime panic
(the Rust code contains unchecked `u128` divisions that panic on a zero
divisor, which is a distinct observable outcome from returning an error). -/
inductive RResult (α : Type) where
  | ok : α → RResult α
  | err : CustomError → RResult α
  | panicked : RResult α
deriving DecidableEq, Repr

/-- `enum CurveType` from `deep.rs`. -/
inductive CurveType where
  | linear
  | exponential
  | sigmoid
  | custom
deriving DecidableEq, Repr

/-- `struct Curve` from `deep.rs` (identical field-for-field to the
`state::Curve` of `deepseek.rs`). `custom_params` is the `[u64; 3]` array:
component 1 is index 0 (slope), component 2.1 is index 1 (exponent),
component 2.2 is index 2 (midpoint). -/
structure Curve where
  curve_type : CurveType
  virtual_sol_reserves : Nat
  virtual_token_reserves : Nat
  real_sol_reserves : Nat
  real_token_reserves : Nat
  initial_virtual_token_reserves : Nat
  custom_params : Nat × Nat × Nat
deriving DecidableEq, Repr

/-- `Curve::initialize` from `deep.rs` lines 152-170 (the `gpt.rs`
lines 109-127 version is textually identical).  The `require!` fires before
any field is assigned, so on failure the receiver is returned unchanged. -/
def Curve.initCurve (self : Curve) (curve_type : CurveType)
    (virtual_sol virtual_token : Nat) (custom_params : Nat × Nat × Nat) :
    RResult Curve :=
  if 0 < virtual_sol ∧ 0 < virtual_token then
    .ok { curve_type := curve_type
          virtual_sol_reserves := virtual_sol
          virtual_token_reserves := virtual_token
          real_sol_reserves := 0
          real_token_reserves := virtual_token
          initial_virtual_token_reserves := virtual_token
          custom_params := custom_params }
  else
    let _ := self
    .err .invalidCurveParameters

/-- `Curve::calculate_linear_buy_price` from `deep.rs` lines 195-209.
`(virtual_sol * amount) / virtual_token` is an unchecked `u128`
multiplication (wrapping) followed by a `u128` division that panics on a
zero divisor; the final `total_price as u64` truncates. -/
def Curve.calculate_linear_buy_price (self : Curve) (amount : Nat) :
    RResult Nat :=
  let virtual_sol := self.virtual_sol_reserves
  let virtual_token := self.virtual_token_reserves
  let slope := self.custom_params.1
  if virtual_token = 0 then .panicked else
  let price := wrap128 (virtual_sol * amount) / virtual_token
  let linear_factor := wrap128 (amount * slope) / BASIS_POINTS
  match checked_add_u128 price linear_factor with
  | none => .err .calculationError
  | some total_price => .ok (as_u64 total_price)

/-- `Curve::calculate_linear_sell_price` from `deep.rs` lines 211-225:
like the buy side but with `checked_sub`, and the result is clamped with
`.min(self.real_sol_reserves)`. -/
def Curve.calculate_linear_sell_price (self : Curve) (amount : Nat) :
    RResult Nat :=
  let virtual_sol := self.virtual_sol_reserves
  let virtual_token := self.virtual_token_reserves
  let slope := self.custom_params.1
  if virtual_token = 0 then .panicked else
  let base_price := wrap128 (virtual_sol * amount) / virtual_token
  let linear_factor := wrap128 (amount * slope) / BASIS_POINTS
  match checked_sub_u128 base_price linear_factor with
  | none => .err .calculationError
  | some total_price => .ok (min (as_u64 total_price) self.real_sol_reserves)

/-- `Curve::calculate_exponential_buy_price` from `deep.rs` lines 228-242.
`((amount * exponent) / BASIS_POINTS).pow(2)` is unchecked `u128`
arithmetic, so both the inner product and the square wrap. -/
def Curve.calculate_exponential_buy_price (self : Curve) (amount : Nat) :
    RResult Nat :=
  let virtual_sol := self.virtual_sol_reserves
  let virtual_token := self.virtual_token_reserves
  let exponent := self.custom_params.2.1
  if virtual_token = 0 then .panicked else
  let base_price := wrap128 (virtual_sol * amount) / virtual_token
  let exp_factor := wrap128 ((wrap128 (amount * exponent) / BASIS_POINTS) ^ 2)
  match checked_add_u128 base_price exp_factor with
  | none => .err .calculationError
  | some total_price => .ok (as_u64 total_price)

/-- `Curve::calculate_exponential_sell_price` from `deep.rs` lines 244-258. -/
def Curve.calculate_exponential_sell_price (self : Curve) (amount : Nat) :
    RResult Nat :=
  let virtual_sol := self.virtual_sol_reserves
  let virtual_token := self.virtual_token_reserves
  let exponent := self.custom_params.2.1
  if virtual_token = 0 then .panicked else
  let base_price := wrap128 (virtual_sol * amount) / virtual_token
  let exp_factor := wrap128 ((wrap128 (amount * exponent) / BASIS_POINTS) ^ 2)
  match checked_sub_u128 base_price exp_factor with
  | none => .err .calculationError
  | some total_price => .ok (min (as_u64 total_price) self.real_sol_reserves)

/-- `Curve::sigmoid` from `deep.rs` lines 329-337: the numerator and
denominator are computed with `checked_mul`/`checked_add`, but the final
`numerator / denominator` is an unchecked `u128` division, which panics
when the denominator is zero (i.e. `x = 0` and `midpoint = 0`). -/
def Curve.sigmoid (self : Curve) (x midpoint : Nat) : RResult Nat :=
  let _ := self
  match checked_mul_u128 x BASIS_POINTS with
  | none => .err .calculationError
  | some numerator =>
    match checked_add_u128 x midpoint with
    | none => .err .calculationError
    | some denominator =>
      if denominator = 0 then .panicked else .ok (numerator / denominator)

/-- `Curve::calculate_sigmoid_buy_price` from `deep.rs` lines 261-273. -/
def Curve.calculate_sigmoid_buy_price (self : Curve) (amount : Nat) :
    RResult Nat :=
  let virtual_sol := self.virtual_sol_reserves
  let virtual_token := self.virtual_token_reserves
  let midpoint := self.custom_params.2.2
  if virtual_token = 0 then .panicked else
  let x := wrap128 (amount * BASIS_POINTS) / virtual_token
  match self.sigmoid x midpoint with
  | .err e => .err e
  | .panicked => .panicked
  | .ok s =>
    let denom := wrap128 (virtual_token * BASIS_POINTS)
    if denom = 0 then .panicked else
    .ok (as_u64 (wrap128 (wrap128 (virtual_sol * amount) * s) / denom))

/-- `Curve::calculate_sigmoid_sell_price` from `deep.rs` lines 275-287. -/
def Curve.calculate_sigmoid_sell_price (self : Curve) (amount : Nat) :
    RResult Nat :=
  let virtual_sol := self.virtual_sol_reserves
  let virtual_token := self.virtual_token_reserves
  let midpoint := self.custom_params.2.2
  if virtual_token = 0 then .panicked else
  let x := wrap128 (amount * BASIS_POINTS) / virtual_token
  match self.sigmoid x midpoint with
  | .err e => .err e
  | .panicked => .panicked
  | .ok s =>
    let denom := wrap128 (virtual_token * BASIS_POINTS)
    if denom = 0 then .panicked else
    .ok (min (as_u64 (wrap128 (wrap128 (virtual_sol * amount) * s) / denom))
          self.real_sol_reserves)

/-- `Curve::calculate_custom_buy_price` from `deep.rs` lines 290-307.
The factor `(amount * slope * exponent) / (midpoint * BASIS_POINTS)` uses
unchecked `u128` multiplications and an unchecked division (panics when
`midpoint = 0`). -/
def Curve.calculate_custom_buy_price (self : Curve) (amount : Nat) :
    RResult Nat :=
  let virtual_sol := self.virtual_sol_reserves
  let virtual_token := self.virtual_token_reserves
  let slope := self.custom_params.1
  let exponent := self.custom_params.2.1
  let midpoint := self.custom_params.2.2
  if virtual_token = 0 then .panicked else
  let base_price := wrap128 (virtual_sol * amount) / virtual_token
  let denom := wrap128 (midpoint * BASIS_POINTS)
  if denom = 0 then .panicked else
  let custom_factor := wrap128 (wrap128 (amount * slope) * exponent) / denom
  match checked_add_u128 base_price custom_factor with
  | none => .err .calculationError
  | some total_price => .ok (as_u64 total_price)

/-- `Curve::calculate_custom_sell_price` from `deep.rs` lines 309-326. -/
def Curve.calculate_custom_sell_price (self : Curve) (amount : Nat) :
    RResult Nat :=
  let virtual_sol := self.virtual_sol_reserves
  let virtual_token := self.virtual_token_reserves
  let slope := self.custom_params.1
  let exponent := self.custom_params.2.1
  let midpoint := self.custom_params.2.2
  if virtual_token = 0 then .panicked else
  let base_price := wrap128 (virtual_sol * amount) / virtual_token
  let denom := wrap128 (midpoint * BASIS_POINTS)
  if denom = 0 then .panicked else
  let custom_factor := wrap128 (wrap128 (amount * slope) * exponent) / denom
  match checked_sub_u128 base_price custom_factor with
  | none => .err .calculationError
  | some total_price => .ok (min (as_u64 total_price) self.real_sol_reserves)

/-- `Curve::calculate_buy_price` from `deep.rs` lines 172-181. -/
def Curve.calculate_buy_price (self : Curve) (amount : Nat) : RResult Nat :=
  if 0 < amount then
    match self.curve_type with
    | .linear => self.calculate_linear_buy_price amount
    | .exponential => self.calculate_exponential_buy_price amount
    | .sigmoid => self.calculate_sigmoid_buy_price amount
    | .custom => self.calculate_custom_buy_price amount
  else .err .invalidAmount

/-- `Curve::calculate_sell_price` from `deep.rs` lines 183-192. -/
def Curve.calculate_sell_price (self : Curve) (amount : Nat) : RResult Nat :=
  if 0 < amount then
    match self.curve_type with
    | .linear => self.calculate_linear_sell_price amount
    | .exponential => self.calculate_exponential_sell_price amount
    | .sigmoid => self.calculate_sigmoid_sell_price amount
    | .custom => self.calculate_custom_sell_price amount
  else .err .invalidAmount

/-- The SOL-side step of `Curve::update_reserves` (`deep.rs` lines 340-348):
`checked_add(sol_delta as u64)` when `sol_delta > 0`, otherwise
`checked_sub(sol_delta.abs() as u64)`.  Returns the state after the step and
the error, if any; a failed `checked_*` leaves the field unassigned. -/
def Curve.update_sol_step (self : Curve) (sol_delta : Int) :
    Curve × Option CustomError :=
  if 0 < sol_delta then
    match checked_add_u64 self.real_sol_reserves sol_delta.toNat with
    | none => (self, some .calculationError)
    | some v => ({ self with real_sol_reserves := v }, none)
  else
    match checked_sub_u64 self.real_sol_reserves sol_delta.natAbs with
    | none => (self, some .calculationError)
    | some v => ({ self with real_sol_reserves := v }, none)

/-- The token-side step of `Curve::update_reserves` (`deep.rs` lines
350-358). -/
def Curve.update_token_step (self : Curve) (token_delta : Int) :
    Curve × Option CustomError :=
  if 0 < token_delta then
    match checked_add_u64 self.real_token_reserves token_delta.toNat with
    | none => (self, some .calculationError)
    | some v => ({ self with real_token_reserves := v }, none)
  else
    match checked_sub_u64 self.real_token_reserves token_delta.natAbs with
    | none => (self, some .calculationError)
    | some v => ({ self with real_token_reserves := v }, none)

/-- `Curve::update_reserves` from `deep.rs` lines 339-361: the SOL side is
written first; if the token-side `checked_*` then fails, the `?` returns the
error with the SOL-side write already in place. -/
def Curve.update_reserves (self : Curve) (sol_delta token_delta : Int) :
    Curve × Option CustomError :=
  match self.update_sol_step sol_delta with
  | (s, some e) => (s, some e)
  | (s, none) => s.update_token_step token_delta

/-- The SOL-side step of `state::Curve::update_reserves` from `deepseek.rs`
lines 380-390: like the `deep.rs` version but with an `else if
sol_delta < 0`, so a zero delta touches nothing. -/
def Curve.update_sol_step_ds (self : Curve) (sol_delta : Int) :
    Curve × Option CustomError :=
  if 0 < sol_delta then
    match checked_add_u64 self.real_sol_reserves sol_delta.toNat with
    | none => (self, some .calculationError)
    | some v => ({ self with real_sol_reserves := v }, none)
  else if sol_delta < 0 then
    match checked_sub_u64 self.real_sol_reserves sol_delta.natAbs with
    | none => (self, some .calculationError)
    | some v => ({ self with real_sol_reserves := v }, none)
  else (self, none)

/-- The token-side step of `state::Curve::update_reserves` from
`deepseek.rs` lines 392-402. -/
def Curve.update_token_step_ds (self : Curve) (token_delta : Int) :
    Curve × Option CustomError :=
  if 0 < token_delta then
    match checked_add_u64 self.real_token_reserves token_delta.toNat with
    | none => (self, some .calculationError)
    | some v => ({ self with real_token_reserves := v }, none)
  else if token_delta < 0 then
    match checked_sub_u64 self.real_token_reserves token_delta.natAbs with
    | none => (self, some .calculationError)
    | some v => ({ self with real_token_reserves := v }, none)
  else (self, none)

/-- `state::Curve::update_reserves` from `deepseek.rs` lines 379-405. -/
def Curve.update_reserves_ds (self : Curve) (sol_delta token_delta : Int) :
    Curve × Option CustomError :=
  match self.update_sol_step_ds sol_delta with
  | (s, some e) => (s, some e)
  | (s, none) => s.update_token_step_ds token_delta

/-- `enum VestingScheduleType` from `deep.rs`. -/
inductive VestingScheduleType where
  | linear
  | staggered
  | cliff
  | customMilestone
deriving DecidableEq, Repr

/-- `struct VestingMilestone` from `deep.rs` (`percentage` is a `u8`). -/
structure VestingMilestone where
  time : Int
  percentage : Nat
  is_claimed : Bool
deriving DecidableEq, Repr

/-- `struct VestingConfig` from `deep.rs`. -/
structure VestingConfig where
  schedule_type : VestingScheduleType
  start_time : Int
  end_time : Int
  cliff_period : Int
  total_amount : Nat
  released_amount : Nat
  milestones : List VestingMilestone
deriving DecidableEq, Repr

/-- The `u16` accumulation `milestones.iter().map(|m| m.percentage as u16).sum()`
from `VestingConfig::initialize`: a fold with wrapping `u16` addition. -/
def milestonePercentageSum (ms : List VestingMilestone) : Nat :=
  (ms.map fun m => m.percentage).foldl (fun a b => (a + b) % 2 ^ 16) 0

/-- `VestingConfig::initialize` from `deep.rs` lines 366-396.  The three
`require!`s fire before any assignment; the scalar fields are then assigned,
and only afterwards is the milestone list validated (so an
`InvalidMilestone` failure leaves the scalar fields already written — the
returned state reflects that).  The percentage sum is accumulated in a
`u16`, which wraps in release builds. -/
def VestingConfig.initVesting (self : VestingConfig)
    (schedule_type : VestingScheduleType)
    (start_time end_time cliff_period : Int) (total_amount : Nat)
    (milestones : List VestingMilestone) :
    VestingConfig × Option CustomError :=
  if ¬ start_time < end_time then (self, some .invalidTimeParameters)
  else if ¬ 0 ≤ cliff_period then (self, some .invalidTimeParameters)
  else if ¬ 0 < total_amount then (self, some .invalidAmount)
  else
    let s1 : VestingConfig :=
      { self with schedule_type := schedule_type
                  start_time := start_time
                  end_time := end_time
                  cliff_period := cliff_period
                  total_amount := total_amount
                  released_amount := 0 }
    if schedule_type = .customMilestone then
      if milestones.isEmpty then (s1, some .invalidMilestone)
      else if milestonePercentageSum milestones = 100 then
        ({ s1 with milestones := milestones }, none)
      else (s1, some .invalidMilestone)
    else ({ s1 with milestones := milestones }, none)

/-- `VestingConfig::calculate_linear_vesting` from `deep.rs` lines 413-430:
early `total_amount` once `current_time ≥ end_time`; otherwise
`i64::checked_sub` for duration and elapsed time (both can overflow `i64`
and then fail with `CalculationError`), `u128` checked multiply and checked
divide (`checked_div` returns `None` on a zero divisor), and a truncating
final `as u64` cast. -/
def VestingConfig.calculate_linear_vesting (self : VestingConfig)
    (current_time : Int) : RResult Nat :=
  if self.end_time ≤ current_time then .ok self.total_amount
  else
    match checked_sub_i64 self.end_time self.start_time with
    | none => .err .calculationError
    | some total_duration =>
      match checked_sub_i64 current_time self.start_time with
      | none => .err .calculationError
      | some elapsed_time =>
        match checked_mul_u128 self.total_amount (i64_as_u128 elapsed_time) with
        | none => .err .calculationError
        | some prod =>
          if i64_as_u128 total_duration = 0 then .err .calculationError
          else .ok (as_u64 (prod / i64_as_u128 total_duration))

/-- `VestingConfig::calculate_cliff_vesting` from `deep.rs` lines 432-438. -/
def VestingConfig.calculate_cliff_vesting (self : VestingConfig)
    (current_time : Int) : RResult Nat :=
  if self.end_time ≤ current_time then .ok self.total_amount else .ok 0

/-- `VestingConfig::calculate_staggered_vesting` from `deep.rs` lines
440-451: 4 stages; `stage_duration = total_duration / 4` (Rust `i64`
division truncates toward zero) and `elapsed_time / stage_duration` panics
when `stage_duration = 0`. -/
def VestingConfig.calculate_staggered_vesting (self : VestingConfig)
    (current_time : Int) : RResult Nat :=
  match checked_sub_i64 self.end_time self.start_time with
  | none => .err .calculationError
  | some total_duration =>
    let stage_duration := Int.tdiv total_duration 4
    match checked_sub_i64 current_time self.start_time with
    | none => .err .calculationError
    | some elapsed_time =>
      if stage_duration = 0 then .panicked
      else
        let current_stage := Int.tdiv elapsed_time stage_duration
        let stage_amount := self.total_amount / 4
        .ok (as_u64 (stage_amount * i64_as_u64 (min current_stage 4)))

/-- `VestingConfig::calculate_milestone_vesting` from `deep.rs` lines
453-471: sums `total_amount * percentage / 100` (u128, checked) over
unclaimed milestones whose time has passed, accumulating with
`u64::checked_add` after an `as u64` cast. -/
def VestingConfig.calculate_milestone_vesting (self : VestingConfig)
    (current_time : Int) : RResult Nat :=
  self.milestones.foldl
    (fun acc m =>
      match acc with
      | .ok vested =>
        if m.time ≤ current_time ∧ m.is_claimed = false then
          match checked_mul_u128 self.total_amount m.percentage with
          | none => .err .calculationError
          | some prod =>
            match checked_add_u64 vested (as_u64 (prod / 100)) with
            | none => .err .calculationError
            | some v => .ok v
        else .ok vested
      | other => other)
    (.ok 0)

/-- `VestingConfig::calculate_vested_amount` from `deep.rs` lines 398-411:
returns 0 before `start_time + cliff_period` (an unchecked `i64` addition,
which wraps), otherwise dispatches on the schedule type and clamps the
result with `.min(self.total_amount)`. -/
def VestingConfig.calculate_vested_amount (self : VestingConfig)
    (current_time : Int) : RResult Nat :=
  if current_time < wrap_i64 (self.start_time + self.cliff_period) then .ok 0
  else
    match
      (match self.schedule_type with
       | .linear => self.calculate_linear_vesting current_time
       | .cliff => self.calculate_cliff_vesting current_time
       | .staggered => self.calculate_staggered_vesting current_time
       | .customMilestone => self.calculate_milestone_vesting current_time)
    with
    | .err e => .err e
    | .panicked => .panicked
    | .ok vested_amount => .ok (min vested_amount self.total_amount)

/-! ### Concrete fixtures used by witnesses and counterexamples -/

/-- A blank receiver for the `&mut self` methods. -/
def blankCurve : Curve := ⟨.linear, 0, 0, 0, 0, 0, (0, 0, 0)⟩

/-- The spec's concrete linear scenario: `virtual_base = 1_000_000`,
`virtual_quote = 100_000_000`, `slope = 0`. -/
def scenarioLinearCurve : Curve :=
  ⟨.linear, 100000000, 1000000, 0, 0, 1000000, (0, 0, 0)⟩

/-- A sigmoid curve with `midpoint = 0` and `virtual_token` large enough that
the normalized `x` of a unit trade is zero. -/
def sigmoidZeroMidpointCurve : Curve := ⟨.sigmoid, 1, 20000, 0, 0, 20000, (0, 0, 0)⟩

/-- A linear curve whose quoted price overflows 64 bits. -/
def hugeLinearCurve : Curve := ⟨.linear, 2 ^ 64 - 1, 1, 0, 0, 1, (0, 0, 0)⟩

/-- A curve with empty real reserves. -/
def emptyReservesCurve : Curve := ⟨.linear, 1, 1, 0, 0, 1, (0, 0, 0)⟩

/-- A curve whose real SOL reserve (50) is below the computed sell price. -/
def sellDemoCurve : Curve := ⟨.linear, 100, 10, 50, 0, 10, (0, 0, 0)⟩

/-- The spec's concrete linear vesting scenario: start 0, end 1000, cliff 0,
total 1000. -/
def scenarioVesting : VestingConfig := ⟨.linear, 0, 1000, 0, 1000, 0, []⟩

/-- A linear vesting schedule whose `end_time - start_time` overflows `i64`. -/
def extremeVesting : VestingConfig := ⟨.linear, -(2 ^ 63), 1, 0, 1000, 0, []⟩

/-- A blank receiver for `VestingConfig::initialize`. -/
def blankVesting : VestingConfig := ⟨.linear, 0, 1, 0, 1, 0, []⟩

/-- 657 milestones whose true percentage sum is 65636 = 2^16 + 100, which the
`u16` accumulator wraps to 100. -/
def wrapMilestones : List VestingMilestone :=
  List.replicate 656 ⟨0, 100, false⟩ ++ [⟨0, 36, false⟩]

/-- Two milestones summing to exactly 100. -/
def goodMilestones : List VestingMilestone := [⟨0, 60, false⟩, ⟨5, 40, false⟩]

/-- A single milestone with percentage 50. -/
def badMilestones : List VestingMilestone := [⟨0, 50, false⟩]

/-! ### Inversion helpers for the checked arithmetic -/

theorem checked_add_u64_eq_some {a b v : Nat} :
    checked_add_u64 a b = some v ↔ a + b < U64_MOD ∧ v = a + b := by
  unfold checked_add_u64
  split <;> simp_all [eq_comm]

theorem checked_sub_u64_eq_some {a b v : Nat} :
    checked_sub_u64 a b = some v ↔ b ≤ a ∧ v = a - b := by
  unfold checked_sub_u64
  split <;> simp_all [eq_comm]

theorem checked_sub_u64_zero (a : Nat) : checked_sub_u64 a 0 = some a := by
  simp [checked_sub_u64]

/-! ### Claim theorems -/

/-- **C1** (counterexample): at `virtual_sol = 5`, `virtual_token = 7`,
`Curve::initialize` succeeds but sets `real_sol_reserves` (the quote side)
to `0`, not to the virtual quote reserve `5`; the token/base side receives
`virtual_token`, and the snapshot taken is of the token/base side.  This
refutes the claim that `real_quote_reserve = virtual_quote` and
`real_base_reserve = 0` on success. -/
theorem c1_initialize_counterexample :
    blankCurve.initCurve .linear 5 7 (0, 0, 0) =
      .ok ⟨.linear, 5, 7, 0, 7, 7, (0, 0, 0)⟩ ∧
    (0 : Nat) ≠ 5 ∧ (7 : Nat) ≠ 0 := by decide

/-- **C1** (amended): `Curve::initialize` fails with
`InvalidCurveParameters` unless both virtual reserves are positive; on
success it sets `real_sol_reserves = 0` (quote side), `real_token_reserves
= virtual_token` (base side), and snapshots
`initial_virtual_token_reserves = virtual_token` (the base side — there is
no quote-side snapshot field). -/
theorem c1_initialize_characterization (c : Curve) (kt : CurveType)
    (vs vt : Nat) (p : Nat × Nat × Nat) :
    (0 < vs ∧ 0 < vt →
      c.initCurve kt vs vt p =
        .ok { curve_type := kt
              virtual_sol_reserves := vs
              virtual_token_reserves := vt
              real_sol_reserves := 0
              real_token_reserves := vt
              initial_virtual_token_reserves := vt
              custom_params := p }) ∧
    (¬ (0 < vs ∧ 0 < vt) →
      c.initCurve kt vs vt p = .err .invalidCurveParameters) := by
  constructor <;> intro h <;> simp [Curve.initCurve, h]

/-- **C1** (witness for the amended theorem at concrete inputs). -/
theorem c1_initialize_witness :
    blankCurve.initCurve .exponential 5 7 (1, 2, 3) =
      .ok { curve_type := .exponential
            virtual_sol_reserves := 5
            virtual_token_reserves := 7
            real_sol_reserves := 0
            real_token_reserves := 7
            initial_virtual_token_reserves := 7
            custom_params := (1, 2, 3) } ∧
    blankCurve.initCurve .exponential 0 7 (1, 2, 3) =
      .err .invalidCurveParameters :=
  ⟨(c1_initialize_characterization blankCurve .exponential 5 7 (1, 2, 3)).1
      (by decide),
   (c1_initialize_characterization blankCurve .exponential 0 7 (1, 2, 3)).2
      (by decide)⟩

/-- **C4**: on a Sigmoid curve with `midpoint = 0` and a unit trade whose
normalized `x` is `0` (so `x + midpoint = 0`), both `calculate_buy_price`
and `calculate_sell_price` hit the unchecked `u128` division
`numerator / denominator` in `Curve::sigmoid` with a zero denominator and
panic — they do not return `CalculationError` as the spec requires. -/
theorem c4_sigmoid_zero_denominator_panics :
    sigmoidZeroMidpointCurve.calculate_buy_price 1 = .panicked ∧
    sigmoidZeroMidpointCurve.calculate_sell_price 1 = .panicked ∧
    wrap128 (1 * BASIS_POINTS) / sigmoidZeroMidpointCurve.virtual_token_reserves
      + sigmoidZeroMidpointCurve.custom_params.2.2 = 0 := by decide

/-- **C5**: on a linear curve with `virtual_sol = 2^64 - 1`,
`virtual_token = 1`, `slope = 0`, a buy of `2` has 128-bit intermediate
total price `2^65 - 2`, which does not fit in 64 bits; instead of failing,
`calculate_buy_price` returns `Ok((2^65 - 2) as u64) = Ok(2^64 - 2)` — a
silently wrapped value different from the intermediate result. -/
theorem c5_buy_price_truncates :
    hugeLinearCurve.calculate_buy_price 2 = .ok (2 ^ 64 - 2) ∧
    hugeLinearCurve.virtual_sol_reserves * 2 /
        hugeLinearCurve.virtual_token_reserves
      + 2 * hugeLinearCurve.custom_params.1 / BASIS_POINTS = 2 ^ 65 - 2 ∧
    ¬ (2 ^ 65 - 2 : Nat) < 2 ^ 64 ∧
    (2 ^ 64 - 2 : Nat) ≠ 2 ^ 65 - 2 := by decide

/-- **C6**: for a Linear curve (in `u64` range, positive base reserve) and
any positive `amount` whose total price fits in 64 bits,
`calculate_buy_price` returns exactly
`virtual_sol·amount / virtual_token + amount·slope / 10000`
(floor division). -/
theorem c6_linear_buy_formula (c : Curve) (amount : Nat)
    (hty : c.curve_type = .linear)
    (hvs : c.virtual_sol_reserves < 2 ^ 64)
    (hvt : 0 < c.virtual_token_reserves)
    (ha : 0 < amount) (ha64 : amount < 2 ^ 64)
    (hsl : c.custom_params.1 < 2 ^ 64)
    (hfit : c.virtual_sol_reserves * amount / c.virtual_token_reserves
            + amount * c.custom_params.1 / BASIS_POINTS < 2 ^ 64) :
    c.calculate_buy_price amount =
      .ok (c.virtual_sol_reserves * amount / c.virtual_token_reserves
           + amount * c.custom_params.1 / BASIS_POINTS) := by
  have hmul1 : c.virtual_sol_reserves * amount < U128_MOD := by
    have := Nat.mul_lt_mul_of_lt_of_lt hvs ha64
    simpa [U128_MOD] using this.trans_le (by norm_num)
  have hmul2 : amount * c.custom_params.1 < U128_MOD := by
    have := Nat.mul_lt_mul_of_lt_of_lt ha64 hsl
    simpa [U128_MOD] using this.trans_le (by norm_num)
  have hsum : c.virtual_sol_reserves * amount / c.virtual_token_reserves
      + amount * c.custom_params.1 / BASIS_POINTS < U128_MOD := by
    refine hfit.trans ?_
    simp [U128_MOD]
  simp only [Curve.calculate_buy_price, if_pos ha, hty]
  simp only [Curve.calculate_linear_buy_price, wrap128,
    Nat.mod_eq_of_lt hmul1, Nat.mod_eq_of_lt hmul2,
    checked_add_u128, if_pos hsum, as_u64,
    Nat.mod_eq_of_lt (show _ < U64_MOD from hfit)]
  rw [if_neg hvt.ne']

/-- **C6** (witness): the spec's concrete scenario —
`quote_buy(10_000) = 1_000_000` on the curve with `virtual_base =
1_000_000`, `virtual_quote = 100_000_000`, `slope = 0`. -/
theorem c6_linear_buy_witness :
    scenarioLinearCurve.calculate_buy_price 10000 = .ok 1000000 := by
  have h := c6_linear_buy_formula scenarioLinearCurve 10000 rfl (by decide)
    (by decide) (by decide) (by decide) (by decide) (by decide)
  rw [h]
  decide

/-! ### Sell-side clamp lemmas (one per curve branch) -/

theorem linear_sell_le_real (c : Curve) (amount v : Nat)
    (h : c.calculate_linear_sell_price amount = .ok v) :
    v ≤ c.real_sol_reserves := by
  simp only [Curve.calculate_linear_sell_price] at h
  split at h
  · exact RResult.noConfusion h
  · split at h
    · exact RResult.noConfusion h
    · rw [RResult.ok.injEq] at h
      exact h ▸ min_le_right _ _

theorem exponential_sell_le_real (c : Curve) (amount v : Nat)
    (h : c.calculate_exponential_sell_price amount = .ok v) :
    v ≤ c.real_sol_reserves := by
  simp only [Curve.calculate_exponential_sell_price] at h
  split at h
  · exact RResult.noConfusion h
  · split at h
    · exact RResult.noConfusion h
    · rw [RResult.ok.injEq] at h
      exact h ▸ min_le_right _ _

theorem sigmoid_sell_le_real (c : Curve) (amount v : Nat)
    (h : c.calculate_sigmoid_sell_price amount = .ok v) :
    v ≤ c.real_sol_reserves := by
  simp only [Curve.calculate_sigmoid_sell_price] at h
  split at h
  · exact RResult.noConfusion h
  · split at h
    · exact RResult.noConfusion h
    · exact RResult.noConfusion h
    · split at h
      · exact RResult.noConfusion h
      · rw [RResult.ok.injEq] at h
        exact h ▸ min_le_right _ _

theorem custom_sell_le_real (c : Curve) (amount v : Nat)
    (h : c.calculate_custom_sell_price amount = .ok v) :
    v ≤ c.real_sol_reserves := by
  simp only [Curve.calculate_custom_sell_price] at h
  split at h
  · exact RResult.noConfusion h
  · split at h
    · exact RResult.noConfusion h
    · split at h
      · exact RResult.noConfusion h
      · rw [RResult.ok.injEq] at h
        exact h ▸ min_le_right _ _

/-- **C3**: whenever `calculate_sell_price` succeeds (any curve kind, any
positive amount), the returned quote amount is at most the curve's
`real_sol_reserves` — every sell branch clamps with
`.min(self.real_sol_reserves)`. -/
theorem c3_sell_price_le_real_reserves (c : Curve) (amount v : Nat)
    (ha : 0 < amount) (h : c.calculate_sell_price amount = .ok v) :
    v ≤ c.real_sol_reserves := by
  unfold Curve.calculate_sell_price at h
  rw [if_pos ha] at h
  cases hty : c.curve_type <;> rw [hty] at h
  · exact linear_sell_le_real c amount v h
  · exact exponential_sell_le_real c amount v h
  · exact sigmoid_sell_le_real c amount v h
  · exact custom_sell_le_real c amount v h

/-- **C3** (witness): on a curve with `real_sol_reserves = 50` whose raw
sell price is 100, the clamped result 50 is within reserves. -/
theorem c3_sell_price_witness :
    (0 : Nat) < 10 ∧ (50 : Nat) ≤ sellDemoCurve.real_sol_reserves :=
  ⟨by decide,
   c3_sell_price_le_real_reserves sellDemoCurve 10 50 (by decide) (by decide)⟩

/-! ### Frame lemmas for the reserve-update steps -/

theorem update_sol_step_fields (c : Curve) (d : Int) :
    (c.update_sol_step d).1.curve_type = c.curve_type ∧
    (c.update_sol_step d).1.virtual_sol_reserves = c.virtual_sol_reserves ∧
    (c.update_sol_step d).1.virtual_token_reserves = c.virtual_token_reserves ∧
    (c.update_sol_step d).1.real_token_reserves = c.real_token_reserves ∧
    (c.update_sol_step d).1.initial_virtual_token_reserves
      = c.initial_virtual_token_reserves ∧
    (c.update_sol_step d).1.custom_params = c.custom_params := by
  by_cases h1 : 0 < d
  · rcases h2 : checked_add_u64 c.real_sol_reserves d.toNat with _ | v <;>
      simp [Curve.update_sol_step, h1, h2]
  · rcases h2 : checked_sub_u64 c.real_sol_reserves d.natAbs with _ | v <;>
      simp [Curve.update_sol_step, h1, h2]

theorem update_token_step_fields (c : Curve) (d : Int) :
    (c.update_token_step d).1.curve_type = c.curve_type ∧
    (c.update_token_step d).1.virtual_sol_reserves = c.virtual_sol_reserves ∧
    (c.update_token_step d).1.virtual_token_reserves = c.virtual_token_reserves ∧
    (c.update_token_step d).1.real_sol_reserves = c.real_sol_reserves ∧
    (c.update_token_step d).1.initial_virtual_token_reserves
      = c.initial_virtual_token_reserves ∧
    (c.update_token_step d).1.custom_params = c.custom_params := by
  by_cases h1 : 0 < d
  · rcases h2 : checked_add_u64 c.real_token_reserves d.toNat with _ | v <;>
      simp [Curve.update_token_step, h1, h2]
  · rcases h2 : checked_sub_u64 c.real_token_reserves d.natAbs with _ | v <;>
      simp [Curve.update_token_step, h1, h2]

theorem update_sol_step_ds_fields (c : Curve) (d : Int) :
    (c.update_sol_step_ds d).1.curve_type = c.curve_type ∧
    (c.update_sol_step_ds d).1.virtual_sol_reserves = c.virtual_sol_reserves ∧
    (c.update_sol_step_ds d).1.virtual_token_reserves = c.virtual_token_reserves ∧
    (c.update_sol_step_ds d).1.real_token_reserves = c.real_token_reserves ∧
    (c.update_sol_step_ds d).1.initial_virtual_token_reserves
      = c.initial_virtual_token_reserves ∧
    (c.update_sol_step_ds d).1.custom_params = c.custom_params := by
  by_cases h1 : 0 < d
  · rcases h2 : checked_add_u64 c.real_sol_reserves d.toNat with _ | v <;>
      simp [Curve.update_sol_step_ds, h1, h2]
  · by_cases h3 : d < 0
    · rcases h2 : checked_sub_u64 c.real_sol_reserves d.natAbs with _ | v <;>
        simp [Curve.update_sol_step_ds, h1, h2, h3]
    · simp [Curve.update_sol_step_ds, h1, h3]

theorem update_token_step_ds_fields (c : Curve) (d : Int) :
    (c.update_token_step_ds d).1.curve_type = c.curve_type ∧
    (c.update_token_step_ds d).1.virtual_sol_reserves = c.virtual_sol_reserves ∧
    (c.update_token_step_ds d).1.virtual_token_reserves = c.virtual_token_reserves ∧
    (c.update_token_step_ds d).1.real_sol_reserves = c.real_sol_reserves ∧
    (c.update_token_step_ds d).1.initial_virtual_token_reserves
      = c.initial_virtual_token_reserves ∧
    (c.update_token_step_ds d).1.custom_params = c.custom_params := by
  by_cases h1 : 0 < d
  · rcases h2 : checked_add_u64 c.real_token_reserves d.toNat with _ | v <;>
      simp [Curve.update_token_step_ds, h1, h2]
  · by_cases h3 : d < 0
    · rcases h2 : checked_sub_u64 c.real_token_reserves d.natAbs with _ | v <;>
        simp [Curve.update_token_step_ds, h1, h2, h3]
    · simp [Curve.update_token_step_ds, h1, h3]

theorem update_sol_step_fail (c : Curve) (d : Int)
    (h : (c.update_sol_step d).2.isSome) : (c.update_sol_step d).1 = c := by
  by_cases h1 : 0 < d
  · rcases h2 : checked_add_u64 c.real_sol_reserves d.toNat with _ | v
    · simp [Curve.update_sol_step, h1, h2]
    · simp [Curve.update_sol_step, h1, h2] at h
  · rcases h2 : checked_sub_u64 c.real_sol_reserves d.natAbs with _ | v
    · simp [Curve.update_sol_step, h1, h2]
    · simp [Curve.update_sol_step, h1, h2] at h

theorem update_token_step_fail (c : Curve) (d : Int)
    (h : (c.update_token_step d).2.isSome) : (c.update_token_step d).1 = c := by
  by_cases h1 : 0 < d
  · rcases h2 : checked_add_u64 c.real_token_reserves d.toNat with _ | v
    · simp [Curve.update_token_step, h1, h2]
    · simp [Curve.update_token_step, h1, h2] at h
  · rcases h2 : checked_sub_u64 c.real_token_reserves d.natAbs with _ | v
    · simp [Curve.update_token_step, h1, h2]
    · simp [Curve.update_token_step, h1, h2] at h

/-- **C10**: a successful `update_reserves` (both the `deep.rs` version and
the `deepseek.rs` version) leaves `curve_type`, both virtual reserves, the
`initial_virtual_token_reserves` snapshot, and `custom_params` untouched:
trades can only move the two real reserve fields, never the pricing
parameters. -/
theorem c10_update_reserves_frame (c : Curve) (sd td : Int)
    (_hok : (c.update_reserves sd td).2 = none)
    (_hok' : (c.update_reserves_ds sd td).2 = none) :
    ((c.update_reserves sd td).1.curve_type = c.curve_type ∧
     (c.update_reserves sd td).1.virtual_sol_reserves = c.virtual_sol_reserves ∧
     (c.update_reserves sd td).1.virtual_token_reserves
       = c.virtual_token_reserves ∧
     (c.update_reserves sd td).1.initial_virtual_token_reserves
       = c.initial_virtual_token_reserves ∧
     (c.update_reserves sd td).1.custom_params = c.custom_params) ∧
    ((c.update_reserves_ds sd td).1.curve_type = c.curve_type ∧
     (c.update_reserves_ds sd td).1.virtual_sol_reserves
       = c.virtual_sol_reserves ∧
     (c.update_reserves_ds sd td).1.virtual_token_reserves
       = c.virtual_token_reserves ∧
     (c.update_reserves_ds sd td).1.initial_virtual_token_reserves
       = c.initial_virtual_token_reserves ∧
     (c.update_reserves_ds sd td).1.custom_params = c.custom_params) := by
  constructor
  · rcases hs : c.update_sol_step sd with ⟨s, oe⟩
    have hA := update_sol_step_fields c sd
    rw [hs] at hA
    cases oe with
    | some e =>
      simp only [Curve.update_reserves, hs]
      exact ⟨hA.1, hA.2.1, hA.2.2.1, hA.2.2.2.2.1, hA.2.2.2.2.2⟩
    | none =>
      have hB := update_token_step_fields s td
      simp only [Curve.update_reserves, hs]
      exact ⟨hB.1.trans hA.1, hB.2.1.trans hA.2.1, hB.2.2.1.trans hA.2.2.1,
        hB.2.2.2.2.1.trans hA.2.2.2.2.1, hB.2.2.2.2.2.trans hA.2.2.2.2.2⟩
  · rcases hs : c.update_sol_step_ds sd with ⟨s, oe⟩
    have hA := update_sol_step_ds_fields c sd
    rw [hs] at hA
    cases oe with
    | some e =>
      simp only [Curve.update_reserves_ds, hs]
      exact ⟨hA.1, hA.2.1, hA.2.2.1, hA.2.2.2.2.1, hA.2.2.2.2.2⟩
    | none =>
      have hB := update_token_step_ds_fields s td
      simp only [Curve.update_reserves_ds, hs]
      exact ⟨hB.1.trans hA.1, hB.2.1.trans hA.2.1, hB.2.2.1.trans hA.2.2.1,
        hB.2.2.2.2.1.trans hA.2.2.2.2.1, hB.2.2.2.2.2.trans hA.2.2.2.2.2⟩

/-- **C10** (witness): concrete successful update leaves the pricing
parameters unchanged. -/
theorem c10_update_reserves_frame_witness :
    ((emptyReservesCurve.update_reserves 3 2).1.curve_type
       = emptyReservesCurve.curve_type ∧
     (emptyReservesCurve.update_reserves 3 2).1.virtual_sol_reserves
       = emptyReservesCurve.virtual_sol_reserves ∧
     (emptyReservesCurve.update_reserves 3 2).1.virtual_token_reserves
       = emptyReservesCurve.virtual_token_reserves ∧
     (emptyReservesCurve.update_reserves 3 2).1.initial_virtual_token_reserves
       = emptyReservesCurve.initial_virtual_token_reserves ∧
     (emptyReservesCurve.update_reserves 3 2).1.custom_params
       = emptyReservesCurve.custom_params) ∧
    ((emptyReservesCurve.update_reserves_ds 3 2).1.curve_type
       = emptyReservesCurve.curve_type ∧
     (emptyReservesCurve.update_reserves_ds 3 2).1.virtual_sol_reserves
       = emptyReservesCurve.virtual_sol_reserves ∧
     (emptyReservesCurve.update_reserves_ds 3 2).1.virtual_token_reserves
       = emptyReservesCurve.virtual_token_reserves ∧
     (emptyReservesCurve.update_reserves_ds 3 2).1.initial_virtual_token_reserves
       = emptyReservesCurve.initial_virtual_token_reserves ∧
     (emptyReservesCurve.update_reserves_ds 3 2).1.custom_params
       = emptyReservesCurve.custom_params) :=
  c10_update_reserves_frame emptyReservesCurve 3 2 (by decide) (by decide)

/-- **C2** (counterexample): with both real reserves at 0,
`update_reserves(+5, -1)` fails — the token-side subtraction underflows —
but the state afterwards has `real_sol_reserves = 5 ≠ 0`: the quote-side
write is observable after the failure, so the mutator is not atomic. -/
theorem c2_update_reserves_counterexample :
    emptyReservesCurve.update_reserves 5 (-1) =
      ({ emptyReservesCurve with real_sol_reserves := 5 },
       some .calculationError) ∧
    ({ emptyReservesCurve with real_sol_reserves := 5 } : Curve)
      ≠ emptyReservesCurve := by decide

/-- **C2** (amended): a failed `update_reserves` leaves every field except
possibly `real_sol_reserves` unchanged (in particular the token side is
never partially written), and when the SOL-side operation itself fails the
whole state is unchanged; but after a SOL-side success followed by a
token-side underflow the SOL-side write remains in place. -/
theorem c2_update_reserves_partial_atomicity (c : Curve) (sd td : Int)
    (h : (c.update_reserves sd td).2.isSome) :
    ((c.update_reserves sd td).1.curve_type = c.curve_type ∧
     (c.update_reserves sd td).1.virtual_sol_reserves = c.virtual_sol_reserves ∧
     (c.update_reserves sd td).1.virtual_token_reserves
       = c.virtual_token_reserves ∧
     (c.update_reserves sd td).1.real_token_reserves = c.real_token_reserves ∧
     (c.update_reserves sd td).1.initial_virtual_token_reserves
       = c.initial_virtual_token_reserves ∧
     (c.update_reserves sd td).1.custom_params = c.custom_params) ∧
    ((c.update_sol_step sd).2.isSome → (c.update_reserves sd td).1 = c) := by
  rcases hs : c.update_sol_step sd with ⟨s, oe⟩
  have hA := update_sol_step_fields c sd
  rw [hs] at hA
  cases oe with
  | some e =>
    have hfail : s = c := by
      have hh := update_sol_step_fail c sd (by rw [hs]; rfl)
      rwa [hs] at hh
    subst hfail
    constructor
    · simp [Curve.update_reserves, hs]
    · intro _
      simp [Curve.update_reserves, hs]
  | none =>
    constructor
    · have hBfail : (s.update_token_step td).1 = s := by
        apply update_token_step_fail
        have : (c.update_reserves sd td) = s.update_token_step td := by
          simp only [Curve.update_reserves, hs]
        rwa [this] at h
      simp only [Curve.update_reserves, hs, hBfail]
      exact ⟨hA.1, hA.2.1, hA.2.2.1, hA.2.2.2.1, hA.2.2.2.2.1, hA.2.2.2.2.2⟩
    · intro hsome
      simp at hsome

/-- **C2** (witness for the amended theorem at a concrete failing input). -/
theorem c2_update_reserves_partial_atomicity_witness :
    ((emptyReservesCurve.update_reserves 5 (-1)).1.curve_type
       = emptyReservesCurve.curve_type ∧
     (emptyReservesCurve.update_reserves 5 (-1)).1.virtual_sol_reserves
       = emptyReservesCurve.virtual_sol_reserves ∧
     (emptyReservesCurve.update_reserves 5 (-1)).1.virtual_token_reserves
       = emptyReservesCurve.virtual_token_reserves ∧
     (emptyReservesCurve.update_reserves 5 (-1)).1.real_token_reserves
       = emptyReservesCurve.real_token_reserves ∧
     (emptyReservesCurve.update_reserves 5 (-1)).1.initial_virtual_token_reserves
       = emptyReservesCurve.initial_virtual_token_reserves ∧
     (emptyReservesCurve.update_reserves 5 (-1)).1.custom_params
       = emptyReservesCurve.custom_params) ∧
    ((emptyReservesCurve.update_sol_step 5).2.isSome →
      (emptyReservesCurve.update_reserves 5 (-1)).1 = emptyReservesCurve) :=
  c2_update_reserves_partial_atomicity emptyReservesCurve 5 (-1) (by decide)

/-- **C7**: for `0 ≤ d` (an `i64` value), if `update_reserves(+d, 0)`
succeeds then `update_reserves(-d, 0)` on the result succeeds and restores
the original state (in particular `real_sol_reserves`); and whenever
`d` exceeds the current `real_sol_reserves`, `update_reserves(-d, 0)`
fails with `CalculationError` (leaving the state unchanged).  Proved for
both the `deep.rs` and the `deepseek.rs` implementation. -/
theorem c7_update_reserves_inverse (c : Curve) (d : Int)
    (h0 : 0 ≤ d) (h1 : d ≤ I64_MAX) :
    (((c.update_reserves d 0).2 = none →
        (c.update_reserves d 0).1.update_reserves (-d) 0 = (c, none)) ∧
     ((c.real_sol_reserves : Int) < d →
        c.update_reserves (-d) 0 = (c, some .calculationError))) ∧
    (((c.update_reserves_ds d 0).2 = none →
        (c.update_reserves_ds d 0).1.update_reserves_ds (-d) 0 = (c, none)) ∧
     ((c.real_sol_reserves : Int) < d →
        c.update_reserves_ds (-d) 0 = (c, some .calculationError))) := by
  refine ⟨⟨?_, ?_⟩, ⟨?_, ?_⟩⟩
  · intro hok
    rcases h0.lt_or_eq with hd | hd
    · have hnd : ¬ 0 < -d := by omega
      rcases hadd : checked_add_u64 c.real_sol_reserves d.toNat with _ | v
      · simp [Curve.update_reserves, Curve.update_sol_step,
          Curve.update_token_step, hd, hadd] at hok
      · have hv := checked_add_u64_eq_some.mp hadd
        have hsub : checked_sub_u64 v d.natAbs
            = some c.real_sol_reserves :=
          checked_sub_u64_eq_some.mpr ⟨by omega, by omega⟩
        simp [Curve.update_reserves, Curve.update_sol_step,
          Curve.update_token_step, hd, hnd, hadd, hsub, checked_sub_u64_zero]
    · subst hd
      simp [Curve.update_reserves, Curve.update_sol_step,
        Curve.update_token_step, checked_sub_u64_zero]
  · intro hlt
    have hnd : ¬ 0 < -d := by omega
    have hfail : checked_sub_u64 c.real_sol_reserves d.natAbs = none := by
      unfold checked_sub_u64
      rw [if_neg]
      omega
    simp [Curve.update_reserves, Curve.update_sol_step, hnd, hfail]
  · intro hok
    rcases h0.lt_or_eq with hd | hd
    · have hnd : ¬ 0 < -d := by omega
      have hnd' : -d < 0 := by omega
      rcases hadd : checked_add_u64 c.real_sol_reserves d.toNat with _ | v
      · simp [Curve.update_reserves_ds, Curve.update_sol_step_ds,
          Curve.update_token_step_ds, hd, hadd] at hok
      · have hv := checked_add_u64_eq_some.mp hadd
        have hsub : checked_sub_u64 v d.natAbs
            = some c.real_sol_reserves :=
          checked_sub_u64_eq_some.mpr ⟨by omega, by omega⟩
        simp [Curve.update_reserves_ds, Curve.update_sol_step_ds,
          Curve.update_token_step_ds, hd, hnd, hnd', hadd, hsub]
    · subst hd
      simp [Curve.update_reserves_ds, Curve.update_sol_step_ds,
        Curve.update_token_step_ds]
  · intro hlt
    have hnd : ¬ 0 < -d := by omega
    have hnd' : -d < 0 := by omega
    have hfail : checked_sub_u64 c.real_sol_reserves d.natAbs = none := by
      unfold checked_sub_u64
      rw [if_neg]
      omega
    simp [Curve.update_reserves_ds, Curve.update_sol_step_ds, hnd, hnd', hfail]

/-- **C7** (witness): with empty reserves, `+3` then `-3` round-trips, and
a bare `-3` underflows with `CalculationError`, in both implementations. -/
theorem c7_update_reserves_inverse_witness :
    ((emptyReservesCurve.update_reserves 3 0).1.update_reserves (-3) 0
       = (emptyReservesCurve, none) ∧
     emptyReservesCurve.update_reserves (-3) 0
       = (emptyReservesCurve, some .calculationError)) ∧
    ((emptyReservesCurve.update_reserves_ds 3 0).1.update_reserves_ds (-3) 0
       = (emptyReservesCurve, none) ∧
     emptyReservesCurve.update_reserves_ds (-3) 0
       = (emptyReservesCurve, some .calculationError)) :=
  ⟨⟨(c7_update_reserves_inverse emptyReservesCurve 3 (by decide)
        (by decide)).1.1 (by decide),
    (c7_update_reserves_inverse emptyReservesCurve 3 (by decide)
        (by decide)).1.2 (by decide)⟩,
   ⟨(c7_update_reserves_inverse emptyReservesCurve 3 (by decide)
        (by decide)).2.1 (by decide),
    (c7_update_reserves_inverse emptyReservesCurve 3 (by decide)
        (by decide)).2.2 (by decide)⟩⟩

/-! ### Range lemmas for the `i64` embedding -/

theorem wrap_i64_eq_self {x : Int} (h1 : I64_MIN ≤ x) (h2 : x ≤ I64_MAX) :
    wrap_i64 x = x := by
  unfold wrap_i64
  unfold I64_MIN at h1
  unfold I64_MAX at h2
  rw [Int.emod_eq_of_lt (by omega) (by omega)]
  ring

theorem i64_as_u128_of_nonneg {x : Int} (h0 : 0 ≤ x) (h1 : x ≤ I64_MAX) :
    i64_as_u128 x = x.toNat := by
  unfold i64_as_u128
  unfold I64_MAX at h1
  rw [Int.emod_eq_of_lt h0 (by omega)]

/-- **C8** (amended): for a Linear schedule with zero cliff,
`vested_amount(now) = total_amount` for every `now ≥ end_time`
(unconditionally), and — provided the schedule duration
`end_time − start_time` fits in `i64` (otherwise the internal
`i64::checked_sub` overflows and the call fails with `CalculationError`) —
`vested_amount(now) = total_amount·(now − start_time)/(end_time −
start_time)` (floor division) for every `start_time ≤ now < end_time`. -/
theorem c8_linear_vesting (v : VestingConfig) (now : Int)
    (hk : v.schedule_type = .linear) (hc : v.cliff_period = 0)
    (hlt : v.start_time < v.end_time)
    (hsmin : I64_MIN ≤ v.start_time) (hsmax : v.start_time ≤ I64_MAX) :
    (v.end_time ≤ now → v.calculate_vested_amount now = .ok v.total_amount) ∧
    (v.end_time - v.start_time ≤ I64_MAX → v.total_amount < 2 ^ 64 →
     v.start_time ≤ now → now < v.end_time →
       v.calculate_vested_amount now =
         .ok (v.total_amount * (now - v.start_time).toNat /
              (v.end_time - v.start_time).toNat)) := by
  have hwrap : wrap_i64 (v.start_time + v.cliff_period) = v.start_time := by
    rw [hc, add_zero]
    exact wrap_i64_eq_self hsmin hsmax
  constructor
  · intro hend
    have hnotlt : ¬ now < wrap_i64 (v.start_time + v.cliff_period) := by
      rw [hwrap]; omega
    simp only [VestingConfig.calculate_vested_amount, if_neg hnotlt, hk]
    simp only [VestingConfig.calculate_linear_vesting, if_pos hend]
    simp
  · intro hdur htot hge hlt2
    have hnotlt : ¬ now < wrap_i64 (v.start_time + v.cliff_period) := by
      rw [hwrap]; omega
    have hnotend : ¬ v.end_time ≤ now := by omega
    have hsub1 : checked_sub_i64 v.end_time v.start_time
        = some (v.end_time - v.start_time) := by
      unfold checked_sub_i64
      have hcond : I64_MIN ≤ v.end_time - v.start_time ∧
          v.end_time - v.start_time ≤ I64_MAX := by
        refine ⟨?_, hdur⟩
        unfold I64_MIN
        omega
      rw [if_pos hcond]
    have hsub2 : checked_sub_i64 now v.start_time
        = some (now - v.start_time) := by
      unfold checked_sub_i64
      have hcond : I64_MIN ≤ now - v.start_time ∧
          now - v.start_time ≤ I64_MAX := by
        constructor
        · unfold I64_MIN; omega
        · unfold I64_MAX at hdur ⊢; omega
      rw [if_pos hcond]
    have he1 : i64_as_u128 (now - v.start_time) = (now - v.start_time).toNat :=
      i64_as_u128_of_nonneg (by omega)
        (by unfold I64_MAX at hdur ⊢; omega)
    have hd1 : i64_as_u128 (v.end_time - v.start_time)
        = (v.end_time - v.start_time).toNat :=
      i64_as_u128_of_nonneg (by omega) hdur
    have helbound : (now - v.start_time).toNat < 2 ^ 63 := by
      unfold I64_MAX at hdur
      omega
    have hmulbound : v.total_amount * (now - v.start_time).toNat < U128_MOD := by
      have h := Nat.mul_lt_mul_of_lt_of_lt htot helbound
      unfold U128_MOD
      omega
    have hmul : checked_mul_u128 v.total_amount ((now - v.start_time).toNat)
        = some (v.total_amount * (now - v.start_time).toNat) := by
      unfold checked_mul_u128
      rw [if_pos hmulbound]
    have hdne : ¬ (v.end_time - v.start_time).toNat = 0 := by omega
    have hq : v.total_amount * (now - v.start_time).toNat /
        (v.end_time - v.start_time).toNat ≤ v.total_amount := by
      have hle : v.total_amount * (now - v.start_time).toNat ≤
          v.total_amount * (v.end_time - v.start_time).toNat :=
        Nat.mul_le_mul_left _ (by omega)
      calc v.total_amount * (now - v.start_time).toNat /
            (v.end_time - v.start_time).toNat
          ≤ v.total_amount * (v.end_time - v.start_time).toNat /
            (v.end_time - v.start_time).toNat := Nat.div_le_div_right hle
        _ = v.total_amount := Nat.mul_div_cancel _ (by omega)
    simp only [VestingConfig.calculate_vested_amount, if_neg hnotlt, hk]
    simp only [VestingConfig.calculate_linear_vesting, if_neg hnotend,
      hsub1, hsub2, he1, hd1, hmul, if_neg hdne]
    simp only [as_u64, U64_MOD, Nat.mod_eq_of_lt (lt_of_le_of_lt hq htot)]
    rw [min_eq_left hq]

/-- **C8** (counterexample to the claim as stated): a Linear schedule with
`start_time = i64::MIN`, `end_time = 1`, `cliff = 0`, `total = 1000` is
accepted by the data model (`end > start`, `cliff = 0`), yet at
`now = 0 ∈ [start_time, end_time)` the internal `end_time - start_time`
overflows `i64`, so `vested_amount` returns `CalculationError` instead of
the claimed floor quotient. -/
theorem c8_linear_vesting_counterexample :
    extremeVesting.calculate_vested_amount 0 = .err .calculationError ∧
    extremeVesting.calculate_vested_amount 0 ≠
      .ok (extremeVesting.total_amount *
            ((0 : Int) - extremeVesting.start_time).toNat /
           (extremeVesting.end_time - extremeVesting.start_time).toNat) := by
  constructor
  · decide
  · decide

/-- **C8** (witness): the spec's concrete scenario — start 0, end 1000,
total 1000: `vested_amount(500) = 500`, `vested_amount(1000) = 1000`,
`vested_amount(1001) = 1000` — and the unconditional past-the-end branch
on the overflowing-duration schedule: `vested_amount(1) = 1000` there. -/
theorem c8_linear_vesting_witness :
    scenarioVesting.calculate_vested_amount 500 = .ok 500 ∧
    scenarioVesting.calculate_vested_amount 1000 = .ok 1000 ∧
    scenarioVesting.calculate_vested_amount 1001 = .ok 1000 ∧
    extremeVesting.calculate_vested_amount 1 = .ok 1000 := by
  have h1 := (c8_linear_vesting scenarioVesting 500 rfl rfl (by decide)
    (by decide) (by decide)).2 (by decide) (by decide) (by decide) (by decide)
  have h2 := (c8_linear_vesting scenarioVesting 1000 rfl rfl (by decide)
    (by decide) (by decide)).1 (by decide)
  have h3 := (c8_linear_vesting scenarioVesting 1001 rfl rfl (by decide)
    (by decide) (by decide)).1 (by decide)
  have h4 := (c8_linear_vesting extremeVesting 1 rfl rfl (by decide)
    (by decide) (by decide)).1 (by decide)
  refine ⟨?_, ?_, ?_, ?_⟩
  · rw [h1]; decide
  · rw [h2]; decide
  · rw [h3]; decide
  · rw [h4]; decide

/-- **C9** (amended): under valid time/amount parameters,
`VestingConfig::initialize` with `CustomMilestone` succeeds iff the
milestone list is non-empty and the percentages sum to 100 *modulo 2^16*
(the Rust accumulator is a `u16`, which wraps in release builds), and fails
with `InvalidMilestone` iff the list is empty or that wrapped sum differs
from 100. -/
theorem c9_milestone_validation (v : VestingConfig) (st et cp : Int)
    (ta : Nat) (ms : List VestingMilestone)
    (h1 : st < et) (h2 : 0 ≤ cp) (h3 : 0 < ta) :
    ((v.initVesting .customMilestone st et cp ta ms).2 = none ↔
       ms ≠ [] ∧ milestonePercentageSum ms = 100) ∧
    ((v.initVesting .customMilestone st et cp ta ms).2
        = some .invalidMilestone ↔
       (ms = [] ∨ milestonePercentageSum ms ≠ 100)) := by
  simp only [VestingConfig.initVesting, if_neg (not_not_intro h1),
    if_neg (not_not_intro h2), if_neg (not_not_intro h3), if_pos rfl]
  by_cases hemp : ms.isEmpty
  · simp [hemp, List.isEmpty_iff.mp hemp]
  · by_cases hsum : milestonePercentageSum ms = 100
    · simp [hemp, hsum, List.isEmpty_iff.not.mp hemp]
    · simp [hemp, hsum, List.isEmpty_iff.not.mp hemp]

/-- **C9** (witness): milestones of 60% and 40% are accepted; a single 50%
milestone is rejected with `InvalidMilestone`. -/
theorem c9_milestone_validation_witness :
    (blankVesting.initVesting .customMilestone 0 1 0 1 goodMilestones).2
      = none ∧
    (blankVesting.initVesting .customMilestone 0 1 0 1 badMilestones).2
      = some .invalidMilestone :=
  ⟨(c9_milestone_validation blankVesting 0 1 0 1 goodMilestones (by decide)
      (by decide) (by decide)).1.mpr (by decide),
   (c9_milestone_validation blankVesting 0 1 0 1 badMilestones (by decide)
      (by decide) (by decide)).2.mpr (by decide)⟩

set_option maxRecDepth 8000 in
/-- **C9** (counterexample to the claim as stated): 657 milestones whose
percentages (all valid `u8` values) truly sum to 65636 ≠ 100 are accepted
by `initialize`, because the `u16` accumulator wraps 65636 to 100. -/
theorem c9_milestone_validation_counterexample :
    (blankVesting.initVesting .customMilestone 0 1 0 1 wrapMilestones).2
      = none ∧
    (wrapMilestones.map fun m => m.percentage).sum = 65636 ∧
    (65636 : Nat) ≠ 100 := by
  refine ⟨?_, ?_, by decide⟩
  · decide
  · decide

end FunPump
